import Mathlib

/-!
Verification development for the `qlued` API core (`src/qlued/api_v3.py`,
`src/qlued/models.py`).  The Django/ninja views are embedded as pure Lean
functions over an explicit environment (`Env`) that carries the database
tables (`StorageProviderDb` rows, `Token` rows) and the `BASE_URL` setting.
Python exceptions are made explicit through `Except PyExn`: an endpoint that
lets an exception escape its own `try/except` blocks evaluates to
`Except.error`, while every HTTP answer it builds itself evaluates to
`Except.ok (code, body)`.

The helper module `qlued/storage_providers.py` (the functions
`get_short_backend_name`, `get_storage_provider`,
`get_storage_provider_from_entry`) is not part of the sources; those
functions are modelled from the specification (sections 4.1 and 4.2), with
the failure mode of provider lookup pinned by the repository's own test
`tests/test_storage_providers.py` (it asserts `StorageProviderDb.DoesNotExist`).
-/

namespace Qlued

/-! ### String utilities

Python's `backend_name.split("_")` and `"dummy" in backend` are embedded as
structurally recursive functions on `List Char` so that every definition is
kernel-evaluable on concrete inputs. -/

/-- Split a character list at every underscore, keeping empty chunks, exactly
as Python's `str.split("_")` does. -/
def splitUnd : List Char → List (List Char)
  | [] => [[]]
  | c :: rest =>
    if c = '_' then [] :: splitUnd rest
    else
      match splitUnd rest with
      | h :: t => (c :: h) :: t
      | [] => [[c]]

/-- Embedding of Python's `backend_name.split("_")`. -/
def splitParts (s : String) : List String :=
  (splitUnd s.data).map (fun cs => String.mk cs)

/-- Boolean test that `pat` is an initial segment of `cs`. -/
def strStartsWith : List Char → List Char → Bool
  | [], _ => true
  | _ :: _, [] => false
  | p :: ps, c :: cs => p == c && strStartsWith ps cs

/-- Boolean test that `pat` occurs somewhere inside `cs`. -/
def hasSub (pat : List Char) : List Char → Bool
  | [] => strStartsWith pat []
  | c :: cs => strStartsWith pat (c :: cs) || hasSub pat cs

/-- Embedding of Python's `"dummy" in backend` substring test used by
`list_backends`. -/
def containsDummy (s : String) : Bool := hasSub "dummy".data s.data

/-! ### Exceptions and response bodies -/

/-- The Python exceptions that the views raise, catch, or let escape. -/
inductive PyExn where
  /-- `StorageProviderDb.DoesNotExist` or `Token.DoesNotExist`. -/
  | doesNotExist
  /-- Builtin `FileNotFoundError` (the only class `get_backend_status` catches). -/
  | fileNotFound
  /-- `dropbox.exceptions.AuthError`. -/
  | authError
  /-- `dropbox.exceptions.ApiError`. -/
  | apiError
  /-- `qlued.api_v3.InvalidToken`. -/
  | invalidToken
  deriving DecidableEq, Repr

/-- The uniform `{job_id, status, detail, error_message}` envelope
(`sqooler.schemes.StatusMsgDict` and the literal dicts in `api_v3.py`). -/
structure StatusMsg where
  job_id : String
  status : String
  detail : String
  error_message : String
  deriving DecidableEq, Repr

/-- Opaque stand-in for `sqooler.schemes.ResultDict`; the core never looks
inside a result record, it only forwards it. -/
structure ResultDict where
  payload : String
  deriving DecidableEq, Repr

/-- The fields of `sqooler.schemes.BackendConfigSchemaOut` that the core
reads or writes: the device's own `simulator` flag and the derived `url`. -/
structure BackendConfigSchemaOut where
  display_name : String
  simulator : Bool
  url : String
  deriving DecidableEq, Repr

/-- Opaque stand-in for `sqooler.schemes.BackendStatusSchemaOut`; the core
forwards it untouched. -/
structure BackendStatusSchemaOut where
  operational : Bool
  deriving DecidableEq, Repr

/-- The possible response bodies of the v3 endpoints. -/
inductive Body where
  | msg (m : StatusMsg)
  | result (r : ResultDict)
  | config (c : BackendConfigSchemaOut)
  | backendStatus (b : BackendStatusSchemaOut)
  | configs (cs : List BackendConfigSchemaOut)
  deriving DecidableEq, Repr

/-- Outcome of one request: an HTTP answer `(code, body)`, or an exception
that escaped the view. -/
abbrev HttpResult := Except PyExn (Nat × Body)

/-! ### Database rows (`qlued/models.py`) -/

/-- A row of the `Token` table (`models.py`): `key` is unique; `username` is
the linked user's username reached through the `user` foreign key. -/
structure Token where
  key : String
  username : String
  created_at : Nat
  is_active : Bool
  storage_provider : Option String
  deriving DecidableEq, Repr

/-- The capability interface of an instantiated storage-provider client
(`sqooler` storage providers, out of scope themselves): job-addressing reads
are total, the two upload writes may fail with a provider exception. -/
structure StorageProvider where
  name : String
  get_backends : List String
  get_backend_dict : String → BackendConfigSchemaOut
  get_backend_status : String → BackendStatusSchemaOut
  upload_job : String → String → String → Except PyExn String
  upload_status : String → String → String → Except PyExn StatusMsg
  get_status : String → String → String → StatusMsg
  get_result : String → String → String → ResultDict

/-- A row of the `StorageProviderDb` table together with the client that
`get_storage_provider_from_entry` instantiates from its login data. -/
structure StorageProviderDbEntry where
  name : String
  is_active : Bool
  client : StorageProvider

/-- The request environment: the two database tables and the `BASE_URL`
configuration value. -/
structure Env where
  storage_provider_entries : List StorageProviderDbEntry
  tokens : List Token
  base_url : String

/-- Embedding of `Token.objects.get(key=...)` as a first-match lookup
(`key` is a unique column, so first match is the match). -/
def findToken (tokens : List Token) (key : String) : Option Token :=
  tokens.find? (fun t => t.key == key)

/-! ### Modelled resolver functions (`qlued/storage_providers.py`) -/

/-- Modelled from the spec: `get_short_backend_name` (NameResolver, spec
section 4.1) lives in `qlued/storage_providers.py`, which is absent from the
sources.  Split the identifier on `_`; one part means the bare device
short-name, three parts mean `{provider}_{device}_{variant}` whose middle
part is the device short-name; any other part count is "no match"
(`none`).  Total and pure by construction. -/
def get_short_backend_name (backend_name : String) : Option String :=
  match splitParts backend_name with
  | [d] => some d
  | [_, d, _] => some d
  | _ => none

/-- Modelled from the spec: `get_storage_provider` (ProviderRegistry, spec
section 4.2) lives in `qlued/storage_providers.py`, which is absent from the
sources.  It resolves the provider-name part (the first `_`-separated token
of the identifier) against the `StorageProviderDb` table and instantiates
the matching entry's client; when no record matches it fails with
`StorageProviderDb.DoesNotExist`, the exception class pinned by
`tests/test_storage_providers.py`. -/
def get_storage_provider (env : Env) (backend_name : String) :
    Except PyExn StorageProvider :=
  match env.storage_provider_entries.find?
      (fun e => e.name == (splitParts backend_name).headD "") with
  | some e => Except.ok e.client
  | none => Except.error PyExn.doesNotExist

/-! ### Authentication (`api_v3.py` lines 41-77) -/

/-- The fixed body built by the `on_invalid_token` exception handler. -/
def invalidCredentialsBody : StatusMsg :=
  { job_id := "None", status := "ERROR",
    detail := "Invalid credentials!", error_message := "Invalid credentials!" }

/-- Embedding of `AuthBearer.authenticate`: exact-match lookup of the bearer
token against `Token.key`; on a miss it raises `InvalidToken`. -/
def authenticate (tokens : List Token) (token : String) : Except PyExn String :=
  match findToken tokens token with
  | some _ => Except.ok token
  | none => Except.error PyExn.invalidToken

/-- Run an authenticated view: ninja calls `AuthBearer.authenticate` first,
and the registered `on_invalid_token` handler turns `InvalidToken` into the
fixed 401 response. -/
def runAuth (env : Env) (token : String) (view : String → HttpResult) : HttpResult :=
  match authenticate env.tokens token with
  | Except.ok api_key => view api_key
  | Except.error PyExn.invalidToken =>
      Except.ok (401, Body.msg invalidCredentialsBody)
  | Except.error e => Except.error e

/-! ### Unauthenticated endpoints -/

/-- The 404 body of `get_config`, whose `detail` interpolates the offending
identifier (both literal dicts in the view concatenate to this string). -/
def configUnknownBody (backend_name : String) : StatusMsg :=
  { job_id := "None", status := "ERROR",
    detail := "Unknown back-end " ++ backend_name ++
      "! The string should have 1 or three parts separated by `_`!",
    error_message := "Unknown back-end!" }

/-- The 404 body of `get_backend_status` (no identifier interpolation). -/
def statusUnknownBody : StatusMsg :=
  { job_id := "None", status := "ERROR",
    detail := "Unknown back-end! The string should have 1 or three parts separated by `_`!",
    error_message := "Unknown back-end!" }

/-- Embedding of the `get_config` view (`api_v3.py` lines 86-144): resolve
the short name, resolve the provider (catching `StorageProviderDb.DoesNotExist`),
then return the device config with the derived `url` injected. -/
def get_config (env : Env) (backend_name : String) : HttpResult :=
  match get_short_backend_name backend_name with
  | none => Except.ok (404, Body.msg (configUnknownBody backend_name))
  | some short_backend =>
    match get_storage_provider env backend_name with
    | Except.error PyExn.doesNotExist =>
        Except.ok (404, Body.msg (configUnknownBody backend_name))
    | Except.error e => Except.error e
    | Except.ok storage_provider =>
        let config_info := storage_provider.get_backend_dict short_backend
        let full_backend_name :=
          if config_info.simulator then
            storage_provider.name ++ "_" ++ short_backend ++ "_simulator"
          else
            storage_provider.name ++ "_" ++ short_backend ++ "_hardware"
        Except.ok (200, Body.config
          { config_info with
            url := env.base_url ++ "/api/v2/" ++ full_backend_name ++ "/" })

/-- Embedding of the `get_backend_status` view (`api_v3.py` lines 153-193).
Its `try/except` catches only `FileNotFoundError`, so the
`StorageProviderDb.DoesNotExist` raised by a failed provider lookup
escapes the view. -/
def get_backend_status (env : Env) (backend_name : String) : HttpResult :=
  match get_short_backend_name backend_name with
  | none => Except.ok (404, Body.msg statusUnknownBody)
  | some short_backend =>
    match get_storage_provider env backend_name with
    | Except.error PyExn.fileNotFound =>
        Except.ok (404, Body.msg statusUnknownBody)
    | Except.error e => Except.error e
    | Except.ok storage_provider =>
        Except.ok (200,
          Body.backendStatus (storage_provider.get_backend_status short_backend))

/-! ### Authenticated endpoints -/

/-- The uniform 404 body used by `post_job` / `get_job_result` on a failed
device-membership check. -/
def unknownBackendBody : StatusMsg :=
  { job_id := "None", status := "ERROR",
    detail := "Unknown back-end!", error_message := "Unknown back-end!" }

/-- The uniform 406 body `post_job` builds when a provider upload fails. -/
def saveErrorBody : StatusMsg :=
  { job_id := "None", status := "ERROR",
    detail := "Error saving json data to database!",
    error_message := "Error saving json data to database!" }

/-- Embedding of `sqooler.schemes.get_init_status` (external collaborator):
the freshly initialised status record `get_job_status` starts from. -/
def get_init_status : StatusMsg :=
  { job_id := "None", status := "INITIALIZING", detail := "None",
    error_message := "None" }

/-- Body of the `post_job` view (`api_v3.py` lines 203-255) once
authentication has succeeded with bearer key `api_key`.  The source calls
`get_storage_provider` a second time inside the `try` block; being a pure
lookup it returns the same client, so the embedding shares one call.  The
`try/except (AuthError, ApiError)` around the two uploads is rendered by
catching exactly `authError` and `apiError`; any other exception (also the
`StorageProviderDb.DoesNotExist` of a failed provider lookup, raised before
the `try`) escapes the view. -/
def post_job_view (env : Env) (job_dict : String) (backend_name : String)
    (api_key : String) : HttpResult :=
  match findToken env.tokens api_key with
  | none => Except.error PyExn.doesNotExist
  | some token =>
    match get_storage_provider env backend_name with
    | Except.error e => Except.error e
    | Except.ok storage_provider =>
      match get_short_backend_name backend_name with
      | none =>
          -- Python's "no match" value is never a listed device name, so the
          -- `short_backend not in backend_names` test fires.
          Except.ok (404, Body.msg unknownBackendBody)
      | some short_backend =>
        if short_backend ∈ storage_provider.get_backends then
          match
            (match storage_provider.upload_job job_dict short_backend token.username with
             | Except.error e => Except.error e
             | Except.ok job_id =>
                 storage_provider.upload_status short_backend token.username job_id)
          with
          | Except.ok job_response_dict => Except.ok (200, Body.msg job_response_dict)
          | Except.error PyExn.authError => Except.ok (406, Body.msg saveErrorBody)
          | Except.error PyExn.apiError => Except.ok (406, Body.msg saveErrorBody)
          | Except.error e => Except.error e
        else
          Except.ok (404, Body.msg unknownBackendBody)

/-- The `post_job` endpoint: authentication, then the view. -/
def post_job (env : Env) (token : String) (job_dict : String)
    (backend_name : String) : HttpResult :=
  runAuth env token (post_job_view env job_dict backend_name)

/-- Body of the `get_job_status` view (`api_v3.py` lines 265-292) once
authentication has succeeded.  Note the source resolves the provider before
the membership check, so a failed lookup raises out of the view; the dead
store `job_response_dict.job_id = job_id` of line 283 is overwritten by the
provider's record and is dropped here. -/
def get_job_status_view (env : Env) (backend_name : String) (job_id : String)
    (api_key : String) : HttpResult :=
  match findToken env.tokens api_key with
  | none => Except.error PyExn.doesNotExist
  | some token_object =>
    match get_storage_provider env backend_name with
    | Except.error e => Except.error e
    | Except.ok storage_provider =>
      match get_short_backend_name backend_name with
      | none =>
          Except.ok (404, Body.msg
            { get_init_status with
              status := "ERROR",
              detail := "Unknown back-end!", error_message := "Unknown back-end!" })
      | some short_backend =>
        if short_backend ∈ storage_provider.get_backends then
          let job_response_dict :=
            storage_provider.get_status short_backend token_object.username job_id
          if job_response_dict.status = "ERROR" then
            Except.ok (406, Body.msg job_response_dict)
          else
            Except.ok (200, Body.msg job_response_dict)
        else
          Except.ok (404, Body.msg
            { get_init_status with
              status := "ERROR",
              detail := "Unknown back-end!", error_message := "Unknown back-end!" })

/-- The `get_job_status` endpoint: authentication, then the view. -/
def get_job_status (env : Env) (token : String) (backend_name : String)
    (job_id : String) : HttpResult :=
  runAuth env token (get_job_status_view env backend_name job_id)

/-- Body of the `get_job_result` view (`api_v3.py` lines 302-340) once
authentication has succeeded: fetch the status record first; ERROR is echoed
at 406, anything other than DONE is returned at 200 without a result, and
only at DONE is the provider's `get_result` consulted. -/
def get_job_result_view (env : Env) (backend_name : String) (job_id : String)
    (api_key : String) : HttpResult :=
  match findToken env.tokens api_key with
  | none => Except.error PyExn.doesNotExist
  | some token_object =>
    match get_storage_provider env backend_name with
    | Except.error e => Except.error e
    | Except.ok storage_provider =>
      match get_short_backend_name backend_name with
      | none => Except.ok (404, Body.msg unknownBackendBody)
      | some short_backend =>
        if short_backend ∈ storage_provider.get_backends then
          let status_msg_dict :=
            storage_provider.get_status short_backend token_object.username job_id
          if status_msg_dict.status = "ERROR" then
            Except.ok (406, Body.msg status_msg_dict)
          else if status_msg_dict.status ≠ "DONE" then
            Except.ok (200, Body.msg status_msg_dict)
          else
            Except.ok (200, Body.result
              (storage_provider.get_result short_backend token_object.username job_id))
        else
          Except.ok (404, Body.msg unknownBackendBody)

/-- The `get_job_result` endpoint: authentication, then the view. -/
def get_job_result (env : Env) (token : String) (backend_name : String)
    (job_id : String) : HttpResult :=
  runAuth env token (get_job_result_view env backend_name job_id)

/-- Boolean observer: did the request answer with a result record? -/
def isResultResponse : HttpResult → Bool
  | Except.ok (_, Body.result _) => true
  | _ => false

/-! ### Listing endpoint -/

/-- Embedding of the `list_backends` view (`api_v3.py` lines 349-372): one
accumulator list fed by the nested provider/device loops, skipping inactive
providers and devices whose name contains `"dummy"`. -/
def list_backends (env : Env) : List BackendConfigSchemaOut :=
  env.storage_provider_entries.foldl
    (fun backend_list entry =>
      if entry.is_active then
        entry.client.get_backends.foldl
          (fun acc backend =>
            if containsDummy backend then acc
            else acc ++ [entry.client.get_backend_dict backend])
          backend_list
      else backend_list)
    []

/-- Spec-side reformulation of the listing (spec section 4.4): the configs of
exactly the non-dummy devices of the active providers, provider-record order
first, device-list order second. -/
def activeNonDummyConfigs (env : Env) : List BackendConfigSchemaOut :=
  (env.storage_provider_entries.filter (fun e => e.is_active)).flatMap
    (fun e =>
      (e.client.get_backends.filter (fun b => !(containsDummy b))).map
        e.client.get_backend_dict)

/-! ### Concrete fixtures

Small concrete database contents used to instantiate the theorems below,
mirroring the shape of the repository's test fixtures (a local provider
named `local1` owning a device `fermions`). -/

/-- A stored credential row. -/
def demoToken : Token :=
  { key := "tok1", username := "alice", created_at := 0, is_active := false,
    storage_provider := none }

/-- A device config as the provider hands it out (before `url` injection). -/
def demoConfig (b : String) : BackendConfigSchemaOut :=
  { display_name := b, simulator := true, url := "" }

/-- Job status records keyed by job id: `jerr` is in the terminal ERROR
state, `jrun` is still RUNNING, anything else is DONE. -/
def demoStatusFor (j : String) : StatusMsg :=
  if j = "jerr" then
    { job_id := j, status := "ERROR", detail := "failed", error_message := "failed" }
  else if j = "jrun" then
    { job_id := j, status := "RUNNING", detail := "None", error_message := "None" }
  else
    { job_id := j, status := "DONE", detail := "None", error_message := "None" }

/-- A healthy provider client. -/
def demoClient : StorageProvider :=
  { name := "local1"
    get_backends := ["fermions", "dummy2"]
    get_backend_dict := demoConfig
    get_backend_status := fun _ => { operational := true }
    upload_job := fun _ _ _ => Except.ok "job-123"
    upload_status := fun _ _ j =>
      Except.ok { job_id := j, status := "INITIALIZING", detail := "None",
                  error_message := "None" }
    get_status := fun _ _ j => demoStatusFor j
    get_result := fun _ _ _ => { payload := "measurements" } }

/-- A provider client whose job upload succeeds (minting `job-456`) but whose
status upload fails with `ApiError`. -/
def failClient : StorageProvider :=
  { name := "flaky"
    get_backends := ["fermions"]
    get_backend_dict := demoConfig
    get_backend_status := fun _ => { operational := false }
    upload_job := fun _ _ _ => Except.ok "job-456"
    upload_status := fun _ _ _ => Except.error PyExn.apiError
    get_status := fun _ _ j => demoStatusFor j
    get_result := fun _ _ _ => { payload := "" } }

/-- A database with two active providers, one inactive provider, and one
stored credential; no provider is named `ghostprovider`. -/
def demoEnv : Env :=
  { storage_provider_entries :=
      [{ name := "local1", is_active := true, client := demoClient },
       { name := "flaky", is_active := true, client := failClient },
       { name := "idle", is_active := false, client := demoClient }]
    tokens := [demoToken]
    base_url := "http://testserver" }

/-! ### Helper lemmas -/

lemma findToken_isSome (tokens : List Token) (tok : String) :
    (findToken tokens tok).isSome = true ↔ tok ∈ tokens.map Token.key := by
  simp only [findToken, List.find?_isSome, beq_iff_eq, List.mem_map]

lemma authenticate_eq_ite (tokens : List Token) (tok : String) :
    authenticate tokens tok =
      if (findToken tokens tok).isSome then Except.ok tok
      else Except.error PyExn.invalidToken := by
  unfold authenticate
  cases findToken tokens tok <;> simp

lemma runAuth_ok (env : Env) (tok : String) (t : Token) (view : String → HttpResult)
    (h : findToken env.tokens tok = some t) :
    runAuth env tok view = view tok := by
  unfold runAuth authenticate
  rw [h]

lemma get_job_status_reduce (env : Env) (tok bn jid : String) (t : Token)
    (sp : StorageProvider) (s : String)
    (htok : findToken env.tokens tok = some t)
    (hsp : get_storage_provider env bn = Except.ok sp)
    (hs : get_short_backend_name bn = some s)
    (hmem : s ∈ sp.get_backends) :
    get_job_status env tok bn jid =
      (if (sp.get_status s t.username jid).status = "ERROR" then
         Except.ok (406, Body.msg (sp.get_status s t.username jid))
       else Except.ok (200, Body.msg (sp.get_status s t.username jid))) := by
  unfold get_job_status
  rw [runAuth_ok env tok t _ htok]
  unfold get_job_status_view
  rw [htok, hsp, hs]
  simp only [hmem, if_true, reduceIte]

lemma get_job_result_reduce (env : Env) (tok bn jid : String) (t : Token)
    (sp : StorageProvider) (s : String)
    (htok : findToken env.tokens tok = some t)
    (hsp : get_storage_provider env bn = Except.ok sp)
    (hs : get_short_backend_name bn = some s)
    (hmem : s ∈ sp.get_backends) :
    get_job_result env tok bn jid =
      (if (sp.get_status s t.username jid).status = "ERROR" then
         Except.ok (406, Body.msg (sp.get_status s t.username jid))
       else if (sp.get_status s t.username jid).status ≠ "DONE" then
         Except.ok (200, Body.msg (sp.get_status s t.username jid))
       else
         Except.ok (200, Body.result (sp.get_result s t.username jid))) := by
  unfold get_job_result
  rw [runAuth_ok env tok t _ htok]
  unfold get_job_result_view
  rw [htok, hsp, hs]
  simp only [hmem, if_true, reduceIte]

lemma post_job_reduce (env : Env) (tok job_dict bn : String) (t : Token)
    (sp : StorageProvider) (s : String)
    (htok : findToken env.tokens tok = some t)
    (hsp : get_storage_provider env bn = Except.ok sp)
    (hs : get_short_backend_name bn = some s)
    (hmem : s ∈ sp.get_backends) :
    post_job env tok job_dict bn =
      (match
        (match sp.upload_job job_dict s t.username with
         | Except.error e => Except.error e
         | Except.ok job_id => sp.upload_status s t.username job_id)
       with
       | Except.ok r => Except.ok (200, Body.msg r)
       | Except.error PyExn.authError => Except.ok (406, Body.msg saveErrorBody)
       | Except.error PyExn.apiError => Except.ok (406, Body.msg saveErrorBody)
       | Except.error e => Except.error e) := by
  unfold post_job
  rw [runAuth_ok env tok t _ htok]
  unfold post_job_view
  rw [htok, hsp, hs]
  simp only [hmem, if_true, reduceIte]

/-! ### Claim theorems -/

/-- C1: for every authenticated `get_job_result` call where the backend
resolves and the device is in the provider's device list, an ERROR status
record is echoed at 406, any other non-DONE status is returned at 200 with
the status record and no result record, the provider's `get_result` value is
returned at 200 exactly when the status equals DONE, and a result record is
never part of the answer unless the fetched status is DONE. -/
theorem C1_result_only_after_done (env : Env) (tok bn jid : String) (t : Token)
    (sp : StorageProvider) (s : String) (st : StatusMsg)
    (htok : findToken env.tokens tok = some t)
    (hsp : get_storage_provider env bn = Except.ok sp)
    (hs : get_short_backend_name bn = some s)
    (hmem : s ∈ sp.get_backends)
    (hst : sp.get_status s t.username jid = st) :
    (st.status = "ERROR" →
       get_job_result env tok bn jid = Except.ok (406, Body.msg st)) ∧
    (st.status ≠ "ERROR" → st.status ≠ "DONE" →
       get_job_result env tok bn jid = Except.ok (200, Body.msg st)) ∧
    (st.status = "DONE" →
       get_job_result env tok bn jid =
         Except.ok (200, Body.result (sp.get_result s t.username jid))) ∧
    (isResultResponse (get_job_result env tok bn jid) = true →
       st.status = "DONE") := by
  have hred := get_job_result_reduce env tok bn jid t sp s htok hsp hs hmem
  rw [hst] at hred
  refine ⟨?_, ?_, ?_, ?_⟩
  · intro herr
    rw [hred, if_pos herr]
  · intro herr hdone
    rw [hred, if_neg herr, if_pos hdone]
  · intro hdone
    rw [hred, if_neg (by simp [hdone]), if_neg (by simp [hdone])]
  · intro hres
    by_cases herr : st.status = "ERROR"
    · rw [hred, if_pos herr] at hres
      simp [isResultResponse] at hres
    · by_cases hdone : st.status = "DONE"
      · exact hdone
      · rw [hred, if_neg herr, if_pos hdone] at hres
        simp [isResultResponse] at hres

/-- Witness for C1 at the demo fixtures: job `j7` is DONE, and
`get_job_result` answers 200 with the provider's result record. -/
theorem C1_result_only_after_done_witness :
    demoStatusFor "j7" =
      { job_id := "j7", status := "DONE", detail := "None", error_message := "None" } ∧
    get_job_result demoEnv "tok1" "local1_fermions_simulator" "j7" =
      Except.ok (200, Body.result { payload := "measurements" }) := by
  constructor
  · rfl
  · exact (C1_result_only_after_done demoEnv "tok1" "local1_fermions_simulator" "j7"
      demoToken demoClient "fermions" (demoStatusFor "j7")
      rfl rfl rfl (by decide) rfl).2.2.1 rfl

/-- C3: a bearer token matching no stored `Token.key` makes `post_job`,
`get_job_status` and `get_job_result` all answer 401 with the identical
fixed body `{job_id: "None", status: "ERROR", detail: "Invalid credentials!",
error_message: "Invalid credentials!"}`; the answer is a constant,
independent of the provider tables, so no provider operation is performed. -/
theorem C3_invalid_credentials_uniform_401 (env : Env)
    (tok job_dict backend_name job_id : String)
    (h : findToken env.tokens tok = none) :
    post_job env tok job_dict backend_name =
        Except.ok (401, Body.msg invalidCredentialsBody) ∧
    get_job_status env tok backend_name job_id =
        Except.ok (401, Body.msg invalidCredentialsBody) ∧
    get_job_result env tok backend_name job_id =
        Except.ok (401, Body.msg invalidCredentialsBody) ∧
    invalidCredentialsBody =
      { job_id := "None", status := "ERROR",
        detail := "Invalid credentials!", error_message := "Invalid credentials!" } := by
  unfold post_job get_job_status get_job_result runAuth authenticate
  rw [h]
  exact ⟨rfl, rfl, rfl, rfl⟩

/-- Witness for C3: the key `nope` is stored nowhere in the demo database. -/
theorem C3_invalid_credentials_uniform_401_witness :
    findToken demoEnv.tokens "nope" = none ∧
    post_job demoEnv "nope" "payload" "local1_fermions_simulator" =
      Except.ok (401, Body.msg invalidCredentialsBody) := by
  constructor
  · rfl
  · exact (C3_invalid_credentials_uniform_401 demoEnv "nope" "payload"
      "local1_fermions_simulator" "j7" rfl).1

/-- C4: when the status record fetched by an authenticated, resolved and
member-checked `get_job_status` or `get_job_result` call carries status
ERROR, both endpoints answer with transport code 406 and that very status
record as the body, whose status field is therefore `"ERROR"`. -/
theorem C4_error_status_echoed_as_406 (env : Env) (tok bn jid : String) (t : Token)
    (sp : StorageProvider) (s : String) (st : StatusMsg)
    (htok : findToken env.tokens tok = some t)
    (hsp : get_storage_provider env bn = Except.ok sp)
    (hs : get_short_backend_name bn = some s)
    (hmem : s ∈ sp.get_backends)
    (hst : sp.get_status s t.username jid = st)
    (herr : st.status = "ERROR") :
    get_job_status env tok bn jid = Except.ok (406, Body.msg st) ∧
    get_job_result env tok bn jid = Except.ok (406, Body.msg st) ∧
    st.status = "ERROR" := by
  have h1 := get_job_status_reduce env tok bn jid t sp s htok hsp hs hmem
  have h2 := get_job_result_reduce env tok bn jid t sp s htok hsp hs hmem
  rw [hst] at h1 h2
  rw [h1, h2, if_pos herr, if_pos herr]
  exact ⟨rfl, rfl, herr⟩

/-- Witness for C4 at the demo fixtures: job `jerr` is in the ERROR state. -/
theorem C4_error_status_echoed_as_406_witness :
    (demoStatusFor "jerr").status = "ERROR" ∧
    get_job_status demoEnv "tok1" "local1_fermions_simulator" "jerr" =
      Except.ok (406, Body.msg (demoStatusFor "jerr")) ∧
    get_job_result demoEnv "tok1" "local1_fermions_simulator" "jerr" =
      Except.ok (406, Body.msg (demoStatusFor "jerr")) := by
  have h := C4_error_status_echoed_as_406 demoEnv "tok1" "local1_fermions_simulator"
    "jerr" demoToken demoClient "fermions" (demoStatusFor "jerr")
    rfl rfl rfl (by decide) rfl (by decide)
  exact ⟨h.2.2, h.1, h.2.1⟩

/-- C7: the NameResolver `get_short_backend_name` (modelled from the spec,
its module being absent from the sources) is a total pure function from
arbitrary strings into `Option String`; it returns no match exactly when the
underscore split has a part count outside {1, 3}, returns the sole part of a
1-part split and the middle part of a 3-part split, and `get_config`
surfaces no match as a 404 whose `error_message` is `"Unknown back-end!"`. -/
theorem C7_name_resolver_total (s : String) :
    (get_short_backend_name s = none ↔
       ¬((splitParts s).length = 1 ∨ (splitParts s).length = 3)) ∧
    (∀ d, splitParts s = [d] → get_short_backend_name s = some d) ∧
    (∀ a b c, splitParts s = [a, b, c] → get_short_backend_name s = some b) ∧
    (∀ env : Env, get_short_backend_name s = none →
       get_config env s = Except.ok (404, Body.msg (configUnknownBody s)) ∧
       (configUnknownBody s).error_message = "Unknown back-end!") := by
  refine ⟨?_, ?_, ?_, ?_⟩
  · unfold get_short_backend_name
    rcases hsp : splitParts s with _ | ⟨a, _ | ⟨b, _ | ⟨c, _ | ⟨d, l⟩⟩⟩⟩ <;> simp
  · intro d hd
    unfold get_short_backend_name
    rw [hd]
  · intro a b c habc
    unfold get_short_backend_name
    rw [habc]
  · intro env hnone
    unfold get_config
    rw [hnone]
    exact ⟨rfl, rfl⟩

/-- Witness for C7 at the 2-part identifier `a_b`: resolution fails and
`get_config` answers 404 with the unknown-backend body. -/
theorem C7_name_resolver_total_witness :
    splitParts "a_b" = ["a", "b"] ∧
    get_short_backend_name "a_b" = none ∧
    get_config demoEnv "a_b" =
      Except.ok (404, Body.msg (configUnknownBody "a_b")) := by
  refine ⟨by decide, rfl, ?_⟩
  exact ((C7_name_resolver_total "a_b").2.2.2 demoEnv rfl).1

/-- C9: `AuthBearer.authenticate` succeeds, returning the token, exactly when
some stored `Token` row has that key, raises `InvalidToken` exactly
otherwise, and its outcome depends only on the multiset of stored keys: the
rows' `is_active`, `created_at` and `storage_provider` fields are never
consulted. -/
theorem C9_authenticate_by_key_existence (tokens : List Token) (tok : String) :
    (authenticate tokens tok = Except.ok tok ↔ ∃ t ∈ tokens, t.key = tok) ∧
    (authenticate tokens tok = Except.error PyExn.invalidToken ↔
      ¬∃ t ∈ tokens, t.key = tok) ∧
    (∀ tokens' : List Token, tokens'.map Token.key = tokens.map Token.key →
      authenticate tokens' tok = authenticate tokens tok) := by
  have hex : (∃ t ∈ tokens, t.key = tok) ↔ tok ∈ tokens.map Token.key := by
    simp only [List.mem_map]
  refine ⟨?_, ?_, ?_⟩
  · rw [authenticate_eq_ite, hex, ← findToken_isSome]
    by_cases h : (findToken tokens tok).isSome = true <;> simp [h]
  · rw [authenticate_eq_ite, hex, ← findToken_isSome]
    by_cases h : (findToken tokens tok).isSome = true <;> simp [h]
  · intro tokens' hmap
    rw [authenticate_eq_ite, authenticate_eq_ite]
    have hsame : (findToken tokens' tok).isSome = (findToken tokens tok).isSome := by
      by_cases h : (findToken tokens tok).isSome = true
      · have hmem := (findToken_isSome tokens tok).mp h
        rw [h]
        exact (findToken_isSome tokens' tok).mpr (hmap ▸ hmem)
      · simp only [Bool.not_eq_true] at h
        rw [h]
        by_cases h' : (findToken tokens' tok).isSome = true
        · exfalso
          have hmem := (findToken_isSome tokens' tok).mp h'
          rw [hmap] at hmem
          have := (findToken_isSome tokens tok).mpr hmem
          simp [h] at this
        · simp only [Bool.not_eq_true] at h'
          rw [h']
    rw [hsame]

/-- Witness for C9: the stored key `tok1` authenticates; a variant row with
flipped `is_active` and different metadata but the same key authenticates
identically. -/
theorem C9_authenticate_by_key_existence_witness :
    authenticate demoEnv.tokens "tok1" = Except.ok "tok1" ∧
    authenticate [{ key := "tok1", username := "bob", created_at := 99,
                    is_active := true, storage_provider := some "local1" }] "tok1" =
      authenticate demoEnv.tokens "tok1" := by
  constructor
  · exact (C9_authenticate_by_key_existence demoEnv.tokens "tok1").1.mpr
      ⟨demoToken, by decide, rfl⟩
  · exact (C9_authenticate_by_key_existence demoEnv.tokens "tok1").2.2
      [{ key := "tok1", username := "bob", created_at := 99,
         is_active := true, storage_provider := some "local1" }] (by decide)

lemma device_fold_eq (client : StorageProvider) (bs : List String)
    (acc : List BackendConfigSchemaOut) :
    bs.foldl
      (fun acc2 backend =>
        if containsDummy backend then acc2
        else acc2 ++ [client.get_backend_dict backend]) acc
      = acc ++ (bs.filter (fun b => !(containsDummy b))).map client.get_backend_dict := by
  induction bs generalizing acc with
  | nil => simp
  | cons b bs ih =>
    simp only [List.foldl_cons, List.filter_cons]
    by_cases h : containsDummy b
    · simp [h, ih]
    · simp [h, ih]

lemma entries_fold_eq (entries : List StorageProviderDbEntry)
    (acc : List BackendConfigSchemaOut) :
    entries.foldl
      (fun backend_list entry =>
        if entry.is_active then
          entry.client.get_backends.foldl
            (fun acc2 backend =>
              if containsDummy backend then acc2
              else acc2 ++ [entry.client.get_backend_dict backend])
            backend_list
        else backend_list) acc
      = acc ++ (entries.filter (fun e => e.is_active)).flatMap
          (fun e =>
            (e.client.get_backends.filter (fun b => !(containsDummy b))).map
              e.client.get_backend_dict) := by
  induction entries generalizing acc with
  | nil => simp
  | cons e es ih =>
    simp only [List.foldl_cons, List.filter_cons]
    by_cases h : e.is_active
    · rw [if_pos h, device_fold_eq, ih]
      simp [h, List.append_assoc]
    · rw [if_neg h, ih]
      simp [h]

/-- C5: `list_backends` returns exactly the configs of the devices whose
name does not contain the substring `"dummy"` belonging to providers whose
record has `is_active = true`, in provider-record order then device-list
order (the spec-side reformulation `activeNonDummyConfigs`); consequently
every returned element is the config of such a device. -/
theorem C5_list_backends_active_nondummy (env : Env) :
    list_backends env = activeNonDummyConfigs env ∧
    ∀ c ∈ list_backends env, ∃ entry ∈ env.storage_provider_entries,
      entry.is_active = true ∧ ∃ b ∈ entry.client.get_backends,
        containsDummy b = false ∧ c = entry.client.get_backend_dict b := by
  have heq : list_backends env = activeNonDummyConfigs env := by
    unfold list_backends activeNonDummyConfigs
    rw [entries_fold_eq]
    simp
  refine ⟨heq, ?_⟩
  intro c hc
  rw [heq] at hc
  unfold activeNonDummyConfigs at hc
  rcases List.mem_flatMap.mp hc with ⟨e, he, hcm⟩
  rcases List.mem_map.mp hcm with ⟨b, hb, rfl⟩
  have hef := List.mem_filter.mp he
  have hbf := List.mem_filter.mp hb
  refine ⟨e, hef.1, hef.2, b, hbf.1, ?_, rfl⟩
  simpa using hbf.2

/-- Witness for C5 on the demo database: the dummy device of `local1` and
the whole device list of the inactive provider `idle` are dropped, the
`fermions` devices of the two active providers remain, in order. -/
theorem C5_list_backends_active_nondummy_witness :
    list_backends demoEnv = activeNonDummyConfigs demoEnv ∧
    list_backends demoEnv = [demoConfig "fermions", demoConfig "fermions"] :=
  ⟨(C5_list_backends_active_nondummy demoEnv).1, by decide⟩

/-- C6: on every successful `get_config` call the returned config's `url`
is `BASE_URL ++ "/api/v2/" ++ provider ++ "_" ++ device ++ "_simulator" ++ "/"`
when the device's stored `simulator` flag is true and the `_hardware`
variant otherwise; the suffix is chosen from the device's own flag, and any
identifier resolving to the same provider and short name (in particular the
same identifier again, or one with a different variant part) yields the
identical response. -/
theorem C6_config_url_from_simulator_flag (env : Env) (bn s : String)
    (sp : StorageProvider)
    (hs : get_short_backend_name bn = some s)
    (hsp : get_storage_provider env bn = Except.ok sp) :
    get_config env bn = Except.ok (200, Body.config
      { sp.get_backend_dict s with
        url := env.base_url ++ "/api/v2/" ++
          (if (sp.get_backend_dict s).simulator then
             sp.name ++ "_" ++ s ++ "_simulator"
           else
             sp.name ++ "_" ++ s ++ "_hardware") ++ "/" }) ∧
    (∀ bn', get_short_backend_name bn' = some s →
       get_storage_provider env bn' = Except.ok sp →
       get_config env bn' = get_config env bn) := by
  have key : ∀ b, get_short_backend_name b = some s →
      get_storage_provider env b = Except.ok sp →
      get_config env b = Except.ok (200, Body.config
        { sp.get_backend_dict s with
          url := env.base_url ++ "/api/v2/" ++
            (if (sp.get_backend_dict s).simulator then
               sp.name ++ "_" ++ s ++ "_simulator"
             else
               sp.name ++ "_" ++ s ++ "_hardware") ++ "/" }) := by
    intro b hb hspb
    unfold get_config
    rw [hb, hspb]
  exact ⟨key bn hs hsp,
    fun bn' hb hspb => (key bn' hb hspb).trans (key bn hs hsp).symm⟩

/-- Witness for C6: the demo device `fermions` has `simulator = true` and
its config comes back with the `_simulator/`-suffixed url. -/
theorem C6_config_url_from_simulator_flag_witness :
    get_config demoEnv "local1_fermions_simulator" = Except.ok (200, Body.config
      { display_name := "fermions", simulator := true,
        url := "http://testserver/api/v2/local1_fermions_simulator/" }) :=
  ((C6_config_url_from_simulator_flag demoEnv "local1_fermions_simulator"
    "fermions" demoClient rfl rfl).1).trans rfl

/-- C8: when, after the device-membership check of `post_job` has passed,
the provider raises `AuthError` or `ApiError` in the `upload_job` step or in
the `upload_status` step, the endpoint answers 406 with the fixed body whose
status is `"ERROR"` and whose detail and error message both read
`"Error saving json data to database!"`. -/
theorem C8_provider_failure_uniform_406 (env : Env)
    (tok job_dict bn jid s : String) (t : Token) (sp : StorageProvider) (e : PyExn)
    (htok : findToken env.tokens tok = some t)
    (hsp : get_storage_provider env bn = Except.ok sp)
    (hs : get_short_backend_name bn = some s)
    (hmem : s ∈ sp.get_backends)
    (he : e = PyExn.authError ∨ e = PyExn.apiError)
    (hfail : sp.upload_job job_dict s t.username = Except.error e ∨
             (sp.upload_job job_dict s t.username = Except.ok jid ∧
              sp.upload_status s t.username jid = Except.error e)) :
    post_job env tok job_dict bn = Except.ok (406, Body.msg saveErrorBody) ∧
    saveErrorBody.status = "ERROR" ∧
    saveErrorBody.detail = "Error saving json data to database!" ∧
    saveErrorBody.error_message = "Error saving json data to database!" := by
  have hred := post_job_reduce env tok job_dict bn t sp s htok hsp hs hmem
  refine ⟨?_, rfl, rfl, rfl⟩
  rcases hfail with hup | ⟨hup, hst⟩
  · rw [hred, hup]
    rcases he with rfl | rfl <;> rfl
  · rw [hred, hup]
    simp only [hst]
    rcases he with rfl | rfl <;> rfl

/-- Witness for C8: on the `flaky` provider the job upload succeeds but the
status upload raises `ApiError`, and `post_job` answers the uniform 406. -/
theorem C8_provider_failure_uniform_406_witness :
    failClient.upload_job "payload" "fermions" "alice" = Except.ok "job-456" ∧
    failClient.upload_status "fermions" "alice" "job-456" =
      Except.error PyExn.apiError ∧
    post_job demoEnv "tok1" "payload" "flaky_fermions_simulator" =
      Except.ok (406, Body.msg saveErrorBody) := by
  refine ⟨rfl, rfl, ?_⟩
  exact (C8_provider_failure_uniform_406 demoEnv "tok1" "payload"
    "flaky_fermions_simulator" "job-456" "fermions" demoToken failClient
    PyExn.apiError rfl rfl rfl (by decide) (Or.inr rfl) (Or.inr ⟨rfl, rfl⟩)).1

/-- C10: in the provider-failure branch of `post_job` the 406 body's
`job_id` field is the string `"None"`; in particular, when `upload_job` has
already minted a job id and only `upload_status` failed, the minted id never
reaches the client. -/
theorem C10_lost_job_id_on_upload_status_failure (env : Env)
    (tok job_dict bn jid s : String) (t : Token) (sp : StorageProvider) (e : PyExn)
    (htok : findToken env.tokens tok = some t)
    (hsp : get_storage_provider env bn = Except.ok sp)
    (hs : get_short_backend_name bn = some s)
    (hmem : s ∈ sp.get_backends)
    (he : e = PyExn.authError ∨ e = PyExn.apiError)
    (hup : sp.upload_job job_dict s t.username = Except.ok jid)
    (hst : sp.upload_status s t.username jid = Except.error e) :
    post_job env tok job_dict bn = Except.ok (406, Body.msg saveErrorBody) ∧
    saveErrorBody.job_id = "None" := by
  have hred := post_job_reduce env tok job_dict bn t sp s htok hsp hs hmem
  refine ⟨?_, rfl⟩
  rw [hred, hup]
  simp only [hst]
  rcases he with rfl | rfl <;> rfl

/-- Witness for C10: the job record `job-456` was created at the provider,
yet the client only sees a body with `job_id = "None"`. -/
theorem C10_lost_job_id_on_upload_status_failure_witness :
    failClient.upload_job "payload" "fermions" "alice" = Except.ok "job-456" ∧
    "job-456" ≠ "None" ∧
    post_job demoEnv "tok1" "payload" "flaky_fermions_simulator" =
      Except.ok (406, Body.msg saveErrorBody) ∧
    saveErrorBody.job_id = "None" := by
  refine ⟨rfl, by decide, ?_⟩
  exact C10_lost_job_id_on_upload_status_failure demoEnv "tok1" "payload"
    "flaky_fermions_simulator" "job-456" "fermions" demoToken failClient
    PyExn.apiError rfl rfl rfl (by decide) (Or.inr rfl) rfl rfl

/-- C2: evaluation at the failing input `ghostprovider_x_simulator` (no
provider record named `ghostprovider` exists).  `get_config` answers the
claimed 404 with the unknown-backend body, but `get_backend_status`
(catching only `FileNotFoundError`) and `post_job` (catching nothing at that
point) let the `StorageProviderDb.DoesNotExist` of the failed provider
lookup escape instead of answering 404 — contradicting the claim and the
`get_backend_status` docstring, which promises a 404 when the backend is
not found. -/
theorem C2_unknown_provider_escapes_unhandled :
    get_backend_status demoEnv "ghostprovider_x_simulator" =
      Except.error PyExn.doesNotExist ∧
    post_job demoEnv "tok1" "payload" "ghostprovider_x_simulator" =
      Except.error PyExn.doesNotExist ∧
    get_config demoEnv "ghostprovider_x_simulator" =
      Except.ok (404, Body.msg (configUnknownBody "ghostprovider_x_simulator")) :=
  ⟨rfl, rfl, rfl⟩

end Qlued
